import Mathlib

/-!
Shallow embedding of the entry-pagination / aggregate-count core of the
RSS-reader client (Pinia stores `entries`, `feeds`, `groups` and the UI
settings they read).

The embedding translates the store actions into pure state-transition
functions.  Asynchronous remote calls (Supabase RPCs and row upserts) are
modelled by passing the remote outcome in as an `Except String _` argument
and by returning, next to the new state, the list of remote calls the
action issued, so that theorems can speak about which requests were fired
and with which payloads.  JavaScript truthiness tests on nullable strings
are modelled by `truthy`, JavaScript sparse-array index assignment on the
page-cursor array by `arraySet`, and the in-place mutation of the object
returned by `Array.prototype.find` by `updateFirst`.
-/

namespace Acta

/-- Truthiness of a nullable / optional string in JavaScript:
`null`/`undefined` and the empty string are falsy. -/
def truthy : Option String → Bool
  | none => false
  | some s => !(s == "")

/-- An entry row as used by the pagination and read/star logic
(content fields that the logic never inspects are omitted). -/
structure Entry where
  id : String
  feed_id : String
  published_at : Option String
  created_at : String
  read_at : Option String
  starred_at : Option String
  deriving DecidableEq, Repr

/-- Keyset-pagination cursor: `{ published_at, starred_at?, id }`. -/
structure Cursor where
  published_at : String
  starred_at : Option String
  id : String
  deriving DecidableEq, Repr

/-- Discriminant of `EntryFilter.type`. -/
inductive FilterType
  | all
  | starred
  | feed
  | group
  | category
  | search
  deriving DecidableEq, Repr

/-- The `EntryFilter` record from `types/models.ts`. -/
structure EntryFilter where
  type : FilterType
  feedId : Option String
  groupId : Option String
  category : Option String
  query : Option String
  unreadOnly : Bool
  deriving DecidableEq, Repr

/-- The UI store's pagination-mode setting. -/
inductive PaginationMode
  | infinite
  | paginated
  deriving DecidableEq, Repr

/-- The ambient values the entry store reads from the auth and UI stores:
`authStore.user!.id`, `ui.entriesPerPage`, `ui.paginationMode`,
`ui.readerOpen`. -/
structure Ctx where
  userId : String
  entriesPerPage : Nat
  paginationMode : PaginationMode
  readerOpen : Bool
  deriving DecidableEq, Repr

/-- A value placed into the RPC `params` record. -/
inductive RpcParam
  | str (s : String)
  | nat (n : Nat)
  | bool (b : Bool)
  | optStr (o : Option String)
  deriving DecidableEq, Repr

/-- One Supabase RPC fetch issued by `_callRpc`: the RPC name and the
`params` record, in the order the source assigns its keys. -/
structure FetchRequest where
  rpcName : String
  params : List (String × RpcParam)
  deriving DecidableEq, Repr

/-- The nullable timestamp column carried by a `user_entry_status` upsert. -/
inductive StatusField
  | readAt (v : Option String)
  | starredAt (v : Option String)
  deriving DecidableEq, Repr

/-- One upsert to the `user_entry_status` table. -/
structure UpsertCall where
  user_id : String
  entry_id : String
  field : StatusField
  deriving DecidableEq, Repr

/-- State of the entry store (`useEntryStore`). -/
structure EntryStoreState where
  entries : List Entry
  selectedEntryId : Option String
  loading : Bool
  loadingMore : Bool
  hasMore : Bool
  filter : EntryFilter
  error : Option String
  searchOffset : Nat
  currentPage : Nat
  pageCursors : List (Option Cursor)
  deriving DecidableEq, Repr

/-- A subscribed feed, reduced to the fields the unread-count logic uses.
`category` is nullable (`feed.category || 'other'` in the source);
`unread_count` is a JS number, hence `Int`, so that the zero-clamp is a
real statement. -/
structure SubscribedFeed where
  id : String
  category : Option String
  unread_count : Int
  deriving DecidableEq, Repr

/-- State of the feed store (`useFeedStore`): the feed list plus the
`categoryUnreadCounts` map (insertion-ordered, as a JS `Map`). -/
structure FeedStoreState where
  feeds : List SubscribedFeed
  categoryUnreadCounts : List (String × Int)
  deriving DecidableEq, Repr

/-- A feed group with its denormalized unread count. -/
structure Group where
  id : String
  unread_count : Int
  deriving DecidableEq, Repr

/-- State of the group store (`useGroupStore`): groups plus the
`groupFeeds` map from group id to member feed ids. -/
structure GroupStoreState where
  groups : List Group
  groupFeeds : List (String × List String)
  deriving DecidableEq, Repr

/-- The combined state the entry-store mutators touch. -/
structure AppState where
  es : EntryStoreState
  fs : FeedStoreState
  gs : GroupStoreState
  deriving DecidableEq, Repr

/-- Lookup in an insertion-ordered string-keyed map (JS `Map.get`). -/
def mapGet (m : List (String × Int)) (k : String) : Option Int :=
  (m.find? (fun kv => kv.1 == k)).map (fun kv => kv.2)

/-- Update/insert in an insertion-ordered string-keyed map (JS `Map.set`):
an existing key keeps its position, a new key is appended. -/
def mapSet : List (String × Int) → String → Int → List (String × Int)
  | [], k, v => [(k, v)]
  | kv :: rest, k, v =>
    if kv.1 == k then (k, v) :: rest else kv :: mapSet rest k v

/-- `feedsByGroup`: the feed ids of a group, `[]` when the group is
absent from the `groupFeeds` map. -/
def feedsOfGroup (m : List (String × List String)) (groupId : String) : List String :=
  ((m.find? (fun kv => kv.1 == groupId)).map (fun kv => kv.2)).getD []

/-- `feed.category || 'other'`: `null`/missing and the empty string fall
back to `"other"`. -/
def categoryOf (f : SubscribedFeed) : String :=
  match f.category with
  | none => "other"
  | some c => if c == "" then "other" else c

/-- In-place mutation of the first element satisfying `p` (the object
returned by `Array.prototype.find`); later elements are untouched. -/
def updateFirst {α : Type} (p : α → Bool) (g : α → α) : List α → List α
  | [] => []
  | x :: xs => if p x then g x :: xs else x :: updateFirst p g xs

/-- JS array index assignment `a[i] = v` on the page-cursor array:
overwrites in range, appends at the length, fills holes (read back as
`undefined`, i.e. `none`) beyond it. -/
def arraySet : List (Option Cursor) → Nat → Option Cursor → List (Option Cursor)
  | [], 0, v => [v]
  | [], Nat.succ n, v => none :: arraySet [] n v
  | _ :: xs, 0, v => v :: xs
  | x :: xs, Nat.succ n, v => x :: arraySet xs n v

/-- `useFeedStore.updateUnreadCount` (stores/feeds.ts): clamp the first
matching feed's count at zero after applying the signed delta. -/
def updateUnreadCount (fs : FeedStoreState) (feedId : String) (delta : Int) : FeedStoreState :=
  { fs with
      feeds :=
        updateFirst (fun f => f.id == feedId)
          (fun f => { f with unread_count := max 0 (f.unread_count + delta) }) fs.feeds }

/-- `useFeedStore.updateCategoryUnreadCount` (stores/feeds.ts): clamp the
count of the category the feed belongs to, defaulting a missing key to 0. -/
def updateCategoryUnreadCount (fs : FeedStoreState) (feedId : String) (delta : Int) :
    FeedStoreState :=
  match fs.feeds.find? (fun f => f.id == feedId) with
  | none => fs
  | some feed =>
    let cat := categoryOf feed
    let current := (mapGet fs.categoryUnreadCounts cat).getD 0
    { fs with categoryUnreadCounts := mapSet fs.categoryUnreadCounts cat (max 0 (current + delta)) }

/-- Modelled from the spec: the group store's `updateUnreadCountForFeed`
delta mutator is called by the entry store but its definition is not among
the available source files (the group-store file on hand predates it).
Per the spec, the group aggregate follows the same denormalized-counter
pattern and "each store's delta mutator clamps the resulting count at a
minimum of zero", applied to every group that contains the feed. -/
def updateUnreadCountForFeed (gs : GroupStoreState) (feedId : String) (delta : Int) :
    GroupStoreState :=
  { gs with
      groups :=
        gs.groups.map (fun g =>
          if (feedsOfGroup gs.groupFeeds g.id).contains feedId then
            { g with unread_count := max 0 (g.unread_count + delta) }
          else g) }

/-- One signed-delta mutator call against the aggregate stores. -/
inductive DeltaCall
  | feedDelta (feedId : String) (delta : Int)
  | categoryDelta (feedId : String) (delta : Int)
  | groupDelta (feedId : String) (delta : Int)
  deriving DecidableEq, Repr

/-- Apply one delta mutator call to the pair of aggregate stores. -/
def applyDelta (s : FeedStoreState × GroupStoreState) (c : DeltaCall) :
    FeedStoreState × GroupStoreState :=
  match c with
  | DeltaCall.feedDelta feedId d => (updateUnreadCount s.1 feedId d, s.2)
  | DeltaCall.categoryDelta feedId d => (updateCategoryUnreadCount s.1 feedId d, s.2)
  | DeltaCall.groupDelta feedId d => (s.1, updateUnreadCountForFeed s.2 feedId d)

/-- All aggregate unread counters (feed, category, group) are nonnegative. -/
def CountsNonneg (s : FeedStoreState × GroupStoreState) : Prop :=
  (∀ f ∈ s.1.feeds, 0 ≤ f.unread_count) ∧
  (∀ kv ∈ s.1.categoryUnreadCounts, 0 ≤ kv.2) ∧
  (∀ g ∈ s.2.groups, 0 ≤ g.unread_count)

instance (s : FeedStoreState × GroupStoreState) : Decidable (CountsNonneg s) := by
  unfold CountsNonneg
  infer_instance

-- ---------------------------------------------------------------------------
-- The entry store's remote-call builder (`_callRpc`)
-- ---------------------------------------------------------------------------

/-- The RPC name and `params` record `_callRpc` builds from the filter,
the optional keyset cursor and (for search) the current offset. -/
def callRpcRequest (ctx : Ctx) (searchOffset : Nat) (f : EntryFilter) (cursor : Option Cursor) :
    FetchRequest :=
  let base : List (String × RpcParam) :=
    [("p_user_id", RpcParam.str ctx.userId), ("p_limit", RpcParam.nat ctx.entriesPerPage)]
  let keyset : List (String × RpcParam) :=
    match cursor with
    | none => []
    | some c => [("p_cursor_published_at", RpcParam.str c.published_at),
                 ("p_cursor_id", RpcParam.str c.id)]
  match f.type with
  | FilterType.feed =>
    { rpcName := "get_feed_entries",
      params := base ++ [("p_feed_id", RpcParam.optStr f.feedId),
                         ("p_unread_only", RpcParam.bool f.unreadOnly)] ++ keyset }
  | FilterType.group =>
    { rpcName := "get_group_entries",
      params := base ++ [("p_group_id", RpcParam.optStr f.groupId),
                         ("p_unread_only", RpcParam.bool f.unreadOnly)] ++ keyset }
  | FilterType.category =>
    { rpcName := "get_category_entries",
      params := base ++ [("p_category", RpcParam.optStr f.category),
                         ("p_unread_only", RpcParam.bool f.unreadOnly)] ++ keyset }
  | FilterType.starred =>
    { rpcName := "get_starred_entries",
      params := base ++
        (match cursor with
         | some c =>
           if truthy c.starred_at then
             [("p_cursor_starred_at", RpcParam.optStr c.starred_at),
              ("p_cursor_id", RpcParam.str c.id)]
           else []
         | none => []) }
  | FilterType.search =>
    { rpcName := "search_entries",
      params := base ++ [("p_query", RpcParam.optStr f.query),
                         ("p_offset", RpcParam.nat searchOffset)] }
  | FilterType.all =>
    { rpcName := "get_all_entries",
      params := base ++ [("p_unread_only", RpcParam.bool f.unreadOnly)] ++ keyset }

/-- The keyset cursor derived from the last visible row:
`published_at ?? created_at`, the row's `starred_at` and its id. -/
def cursorOfEntry (e : Entry) : Cursor :=
  { published_at := e.published_at.getD e.created_at,
    starred_at := e.starred_at,
    id := e.id }

-- ---------------------------------------------------------------------------
-- Entry store actions
-- ---------------------------------------------------------------------------

/-- `fetchEntries(newFilter)`: reset the filter, list, selection, search
offset, page counter and cursor list, then fetch the first page.  The
remote outcome is passed in as `res`; the returned list holds the fetch
request that was issued. -/
def fetchEntries (ctx : Ctx) (s : EntryStoreState) (newFilter : EntryFilter)
    (res : Except String (List Entry)) : EntryStoreState × List FetchRequest :=
  let s1 := { s with
    loading := true, error := none, filter := newFilter, entries := [],
    selectedEntryId := none, searchOffset := 0, currentPage := 1, pageCursors := [none] }
  let req := callRpcRequest ctx s1.searchOffset newFilter none
  match res with
  | Except.ok rows =>
    ({ s1 with
        entries := rows,
        hasMore := decide (ctx.entriesPerPage ≤ rows.length),
        searchOffset := if newFilter.type == FilterType.search then rows.length else s1.searchOffset,
        loading := false }, [req])
  | Except.error msg =>
    ({ s1 with error := some msg, loading := false }, [req])

/-- `fetchMore()`: guarded append of the next page (offset-based for
search, cursor-based otherwise). -/
def fetchMore (ctx : Ctx) (s : EntryStoreState) (res : Except String (List Entry)) :
    EntryStoreState × List FetchRequest :=
  if s.loadingMore || !s.hasMore || s.entries.length == 0 then (s, [])
  else
    let s1 := { s with loadingMore := true, error := none }
    if s1.filter.type == FilterType.search then
      let req := callRpcRequest ctx s1.searchOffset s1.filter none
      match res with
      | Except.ok rows =>
        ({ s1 with
            entries := s1.entries ++ rows,
            hasMore := decide (ctx.entriesPerPage ≤ rows.length),
            searchOffset := s1.searchOffset + rows.length,
            loadingMore := false }, [req])
      | Except.error msg =>
        ({ s1 with error := some msg, loadingMore := false }, [req])
    else
      match s1.entries.getLast? with
      | none =>
        -- unreachable: the guard rules out an empty list
        (s1, [])
      | some lastEntry =>
        let cursor := cursorOfEntry lastEntry
        let req := callRpcRequest ctx s1.searchOffset s1.filter (some cursor)
        match res with
        | Except.ok rows =>
          ({ s1 with
              entries := s1.entries ++ rows,
              hasMore := decide (ctx.entriesPerPage ≤ rows.length),
              loadingMore := false }, [req])
        | Except.error msg =>
          ({ s1 with error := some msg, loadingMore := false }, [req])

/-- Argument of `fetchPage`. -/
inductive PageDirection
  | next
  | prev
  deriving DecidableEq, Repr

/-- `fetchPage(direction)`: discrete paging.  `next` records a cursor for
the new page (overwriting in place with JS index assignment) and advances
the page counter; `prev` steps the counter back and re-fetches from the
previously recorded cursor, which is *not* removed from the array. -/
def fetchPage (ctx : Ctx) (s : EntryStoreState) (dir : PageDirection)
    (res : Except String (List Entry)) : EntryStoreState × List FetchRequest :=
  if dir == PageDirection.next && !s.hasMore then (s, [])
  else if dir == PageDirection.prev && s.currentPage ≤ 1 then (s, [])
  else
    let s1 := { s with loading := true, error := none, selectedEntryId := none }
    match dir with
    | PageDirection.next =>
      match s1.entries.getLast? with
      | none =>
        -- `entries.value[entries.value.length - 1]!` on an empty array:
        -- the thrown TypeError is caught and stored as the error message
        ({ s1 with loading := false, error := some "TypeError" }, [])
      | some lastEntry =>
        let nextCursor := cursorOfEntry lastEntry
        let cp := s1.currentPage + 1
        let s2 := { s1 with
          currentPage := cp,
          pageCursors := arraySet s1.pageCursors (cp - 1) (some nextCursor) }
        if s2.filter.type == FilterType.search then
          let so := (cp - 1) * ctx.entriesPerPage
          let s3 := { s2 with searchOffset := so }
          let req := callRpcRequest ctx so s3.filter none
          match res with
          | Except.ok rows =>
            ({ s3 with
                entries := rows,
                hasMore := decide (ctx.entriesPerPage ≤ rows.length),
                loading := false }, [req])
          | Except.error msg =>
            ({ s3 with error := some msg, loading := false }, [req])
        else
          let req := callRpcRequest ctx s2.searchOffset s2.filter (some nextCursor)
          match res with
          | Except.ok rows =>
            ({ s2 with
                entries := rows,
                hasMore := decide (ctx.entriesPerPage ≤ rows.length),
                loading := false }, [req])
          | Except.error msg =>
            ({ s2 with error := some msg, loading := false }, [req])
    | PageDirection.prev =>
      let cp := s1.currentPage - 1
      let cursor := ((s1.pageCursors.get? (cp - 1)).getD none)
      let s2 := { s1 with currentPage := cp }
      if s2.filter.type == FilterType.search then
        let so := (cp - 1) * ctx.entriesPerPage
        let s3 := { s2 with searchOffset := so }
        let req := callRpcRequest ctx so s3.filter none
        match res with
        | Except.ok rows =>
          ({ s3 with
              entries := rows,
              hasMore := decide (ctx.entriesPerPage ≤ rows.length),
              loading := false }, [req])
        | Except.error msg =>
          ({ s3 with error := some msg, loading := false }, [req])
      else
        let req := callRpcRequest ctx s2.searchOffset s2.filter cursor
        match res with
        | Except.ok rows =>
          ({ s2 with
              entries := rows,
              hasMore := decide (ctx.entriesPerPage ≤ rows.length),
              loading := false }, [req])
        | Except.error msg =>
          ({ s2 with error := some msg, loading := false }, [req])

/-- `markRead(entryId)`: no-op unless the entry is loaded and unread;
otherwise upsert `{ read_at: now }`, and only on success stamp the entry
and propagate a `-1` delta to the feed, category and group aggregates. -/
def markRead (ctx : Ctx) (st : AppState) (entryId : String) (now : String)
    (res : Except String Unit) : AppState × List UpsertCall :=
  match st.es.entries.find? (fun e => e.id == entryId) with
  | none => (st, [])
  | some entry =>
    if truthy entry.read_at then (st, [])
    else
      let up : UpsertCall :=
        { user_id := ctx.userId, entry_id := entryId, field := StatusField.readAt (some now) }
      match res with
      | Except.error msg =>
        ({ st with es := { st.es with error := some msg } }, [up])
      | Except.ok _ =>
        let es2 := { st.es with
          error := none,
          entries := updateFirst (fun e => e.id == entryId)
            (fun e => { e with read_at := some now }) st.es.entries }
        let fs2 := updateCategoryUnreadCount (updateUnreadCount st.fs entry.feed_id (-1))
          entry.feed_id (-1)
        let gs2 := updateUnreadCountForFeed st.gs entry.feed_id (-1)
        ({ es := es2, fs := fs2, gs := gs2 }, [up])

/-- `toggleRead(entryId)`: upsert the flipped `read_at`, and only on
success flip the entry and propagate the signed delta (`+1` when it was
read, `-1` when it was unread). -/
def toggleRead (ctx : Ctx) (st : AppState) (entryId : String) (now : String)
    (res : Except String Unit) : AppState × List UpsertCall :=
  match st.es.entries.find? (fun e => e.id == entryId) with
  | none => (st, [])
  | some entry =>
    let newReadAt := if truthy entry.read_at then none else some now
    let up : UpsertCall :=
      { user_id := ctx.userId, entry_id := entryId, field := StatusField.readAt newReadAt }
    match res with
    | Except.error msg =>
      ({ st with es := { st.es with error := some msg } }, [up])
    | Except.ok _ =>
      let delta : Int := if truthy entry.read_at then 1 else -1
      let es2 := { st.es with
        error := none,
        entries := updateFirst (fun e => e.id == entryId)
          (fun e => { e with read_at := newReadAt }) st.es.entries }
      let fs2 := updateCategoryUnreadCount (updateUnreadCount st.fs entry.feed_id delta)
        entry.feed_id delta
      let gs2 := updateUnreadCountForFeed st.gs entry.feed_id delta
      ({ es := es2, fs := fs2, gs := gs2 }, [up])

/-- `toggleStar(entryId)`: upsert the flipped `starred_at`, and only on
success flip the entry.  No aggregate counters are touched. -/
def toggleStar (ctx : Ctx) (st : AppState) (entryId : String) (now : String)
    (res : Except String Unit) : AppState × List UpsertCall :=
  match st.es.entries.find? (fun e => e.id == entryId) with
  | none => (st, [])
  | some entry =>
    let newStarredAt := if truthy entry.starred_at then none else some now
    let up : UpsertCall :=
      { user_id := ctx.userId, entry_id := entryId, field := StatusField.starredAt newStarredAt }
    match res with
    | Except.error msg =>
      ({ st with es := { st.es with error := some msg } }, [up])
    | Except.ok _ =>
      ({ st with es := { st.es with
          error := none,
          entries := updateFirst (fun e => e.id == entryId)
            (fun e => { e with starred_at := newStarredAt }) st.es.entries } }, [up])

/-- The last fetched row with the given id, if any (the JS merge loop
overwrites, so the last matching row wins). -/
def lastMatch (rows : List Entry) (id : String) : Option Entry :=
  (rows.filter (fun r => r.id == id)).getLast?

/-- The in-place half of the `silentRefresh` merge: the merge loop looks
entries up through a `Map` built from the current list (so only the last
occurrence of an id is reachable) and copies `read_at` / `starred_at`
over from the last matching fetched row. -/
def mergeOld : List Entry → List Entry → List Entry
  | [], _ => []
  | e :: rest, rows =>
    (if rest.any (fun e2 => e2.id == e.id) then e
     else
       match lastMatch rows e.id with
       | some row => { e with read_at := row.read_at, starred_at := row.starred_at }
       | none => e) :: mergeOld rest rows

/-- `silentRefresh()`: skipped while loading or while the reader is open
with a selection; in infinite mode with a non-search filter and a
non-empty list it merges the fresh first page (flags refreshed in place,
genuinely new rows prepended, `hasMore` untouched); otherwise it replaces
the current page outright.  Failures are swallowed. -/
def silentRefresh (ctx : Ctx) (s : EntryStoreState) (res : Except String (List Entry)) :
    EntryStoreState × List FetchRequest :=
  if s.loading || s.loadingMore then (s, [])
  else if ctx.readerOpen && truthy s.selectedEntryId then (s, [])
  else
    let isInfinite := ctx.paginationMode == PaginationMode.infinite
    let isSearch := s.filter.type == FilterType.search
    if isInfinite && !isSearch && decide (0 < s.entries.length) then
      let req := callRpcRequest ctx s.searchOffset s.filter none
      match res with
      | Except.error _ => (s, [req])
      | Except.ok rows =>
        let newEntries := rows.filter (fun row => !(s.entries.any (fun e => e.id == row.id)))
        ({ s with entries := newEntries ++ mergeOld s.entries rows }, [req])
    else
      let cursor := ((s.pageCursors.get? (s.currentPage - 1)).getD none)
      let so1 := if isSearch then (s.currentPage - 1) * ctx.entriesPerPage else s.searchOffset
      let s1 := { s with searchOffset := so1 }
      let req := callRpcRequest ctx so1 s1.filter cursor
      match res with
      | Except.error _ => (s1, [req])
      | Except.ok rows =>
        ({ s1 with
            entries := rows,
            hasMore := decide (ctx.entriesPerPage ≤ rows.length),
            searchOffset :=
              if isSearch then (s.currentPage - 1) * ctx.entriesPerPage + rows.length
              else so1 }, [req])

/-- The fields of an entry that the `silentRefresh` merge must leave
untouched (everything except `read_at` / `starred_at`). -/
def entryCore (e : Entry) : String × String × Option String × String :=
  (e.id, e.feed_id, e.published_at, e.created_at)

/-- The fields of an entry that `toggleStar` must leave untouched
(everything except `starred_at`). -/
def entryNoStar (e : Entry) : String × String × Option String × String × Option String :=
  (e.id, e.feed_id, e.published_at, e.created_at, e.read_at)

-- ---------------------------------------------------------------------------
-- Concrete sample values (used by witnesses and counterexamples)
-- ---------------------------------------------------------------------------

def sampleCtx : Ctx :=
  { userId := "u1", entriesPerPage := 2,
    paginationMode := PaginationMode.infinite, readerOpen := false }

def allFilter : EntryFilter :=
  { type := FilterType.all, feedId := none, groupId := none, category := none,
    query := none, unreadOnly := false }

def feedFilter : EntryFilter :=
  { type := FilterType.feed, feedId := some "f1", groupId := none, category := none,
    query := none, unreadOnly := false }

def sampleEntry (i : String) : Entry :=
  { id := i, feed_id := "f1", published_at := some ("P" ++ i), created_at := "C",
    read_at := none, starred_at := none }

/-- The entry store's initial state (the `ref` initializers in the source). -/
def initialEntryState : EntryStoreState :=
  { entries := [], selectedEntryId := none, loading := false, loadingMore := false,
    hasMore := false, filter := allFilter, error := none, searchOffset := 0,
    currentPage := 1, pageCursors := [none] }

def loadedES : EntryStoreState :=
  { initialEntryState with
      entries := [sampleEntry "e1", sampleEntry "e2"], hasMore := true, filter := feedFilter }

def sampleFS : FeedStoreState :=
  { feeds := [{ id := "f1", category := some "tech", unread_count := 3 }],
    categoryUnreadCounts := [("tech", 3)] }

def sampleGS : GroupStoreState :=
  { groups := [{ id := "g1", unread_count := 3 }], groupFeeds := [("g1", ["f1"])] }

def sampleApp : AppState := { es := loadedES, fs := sampleFS, gs := sampleGS }

/-- A refresh result: one genuinely new row plus a fresher copy of an
already-loaded row. -/
def c9rows : List Entry :=
  [sampleEntry "e0", { sampleEntry "e1" with read_at := some "R", starred_at := some "S" }]

/-- Page 1 loaded: two rows, a full page for `sampleCtx`. -/
def c1s1 : EntryStoreState :=
  (fetchEntries sampleCtx initialEntryState feedFilter
    (Except.ok [sampleEntry "e4", sampleEntry "e3"])).1

/-- After `fetchPage('next')`. -/
def c1s2 : EntryStoreState :=
  (fetchPage sampleCtx c1s1 PageDirection.next
    (Except.ok [sampleEntry "e2", sampleEntry "e1"])).1

/-- After the subsequent `fetchPage('prev')`. -/
def c1s3 : EntryStoreState :=
  (fetchPage sampleCtx c1s2 PageDirection.prev
    (Except.ok [sampleEntry "e4", sampleEntry "e3"])).1

-- ---------------------------------------------------------------------------
-- Helper lemmas about updateFirst / mapSet / arraySet
-- ---------------------------------------------------------------------------

theorem updateFirst_map {α β : Type} (p : α → Bool) (g : α → α) (f : α → β)
    (hf : ∀ x, f (g x) = f x) (l : List α) :
    (updateFirst p g l).map f = l.map f := by
  induction l with
  | nil => rfl
  | cons a as ih =>
    by_cases hpa : p a
    · simp [updateFirst, hpa, hf]
    · simp [updateFirst, hpa, ih]

theorem updateFirst_forall2 {α : Type} (p : α → Bool) (g : α → α) (l : List α) :
    List.Forall₂ (fun a b => (p a = true ∧ b = g a) ∨ b = a) l (updateFirst p g l) := by
  induction l with
  | nil => exact List.Forall₂.nil
  | cons a as ih =>
    by_cases hpa : p a
    · simp only [updateFirst, hpa, if_true]
      exact List.Forall₂.cons (Or.inl ⟨hpa, rfl⟩)
        ((List.forall₂_same).2 (fun x _ => Or.inr rfl))
    · simp only [updateFirst, hpa, if_false]
      exact List.Forall₂.cons (Or.inr rfl) ih

theorem find?_updateFirst {α : Type} (p : α → Bool) (g : α → α)
    (hg : ∀ x, p (g x) = p x) (l : List α) :
    (updateFirst p g l).find? p = (l.find? p).map g := by
  induction l with
  | nil => rfl
  | cons a as ih =>
    by_cases hpa : p a
    · simp [updateFirst, hpa, List.find?_cons, hg]
    · simp [updateFirst, hpa, List.find?_cons, ih]

theorem updateFirst_updateFirst {α : Type} (p : α → Bool) (g1 g2 : α → α)
    (hg : ∀ x, p (g1 x) = p x) (l : List α) :
    updateFirst p g2 (updateFirst p g1 l) = updateFirst p (fun x => g2 (g1 x)) l := by
  induction l with
  | nil => rfl
  | cons a as ih =>
    by_cases hpa : p a
    · simp [updateFirst, hpa, hg]
    · simp [updateFirst, hpa, ih]

theorem updateFirst_of_find? {α : Type} (p : α → Bool) (g : α → α) (l : List α) (e : α)
    (hfind : l.find? p = some e) (hfix : g e = e) : updateFirst p g l = l := by
  induction l with
  | nil => simp [List.find?] at hfind
  | cons a as ih =>
    by_cases hpa : p a
    · rw [List.find?_cons_of_pos _ hpa] at hfind
      cases hfind
      simp [updateFirst, hpa, hfix]
    · rw [List.find?_cons_of_neg _ hpa] at hfind
      simp [updateFirst, hpa, ih hfind]

theorem mergeOld_map_core (l rows : List Entry) :
    (mergeOld l rows).map entryCore = l.map entryCore := by
  induction l with
  | nil => rfl
  | cons e rest ih =>
    simp only [mergeOld, List.map_cons, ih]
    congr 1
    split
    · rfl
    · cases lastMatch rows e.id <;> rfl

theorem mergeOld_map_id (l rows : List Entry) :
    (mergeOld l rows).map (fun e => e.id) = l.map (fun e => e.id) := by
  have h := congrArg (List.map (fun c => c.1)) (mergeOld_map_core l rows)
  simpa [List.map_map, Function.comp, entryCore] using h

theorem updateFirst_mem {α : Type} (p : α → Bool) (g : α → α) (l : List α) :
    ∀ x ∈ updateFirst p g l, x ∈ l ∨ ∃ y ∈ l, x = g y := by
  induction l with
  | nil => intro x hx; cases hx
  | cons a as ih =>
    intro x hx
    by_cases hpa : p a
    · simp [updateFirst, hpa] at hx
      rcases hx with hx | hx
      · exact Or.inr ⟨a, List.mem_cons_self a as, hx⟩
      · exact Or.inl (List.mem_cons_of_mem a hx)
    · simp [updateFirst, hpa] at hx
      rcases hx with hx | hx
      · exact Or.inl (by simp [hx])
      · rcases ih x hx with h | ⟨y, hy, hxy⟩
        · exact Or.inl (List.mem_cons_of_mem a h)
        · exact Or.inr ⟨y, List.mem_cons_of_mem a hy, hxy⟩

theorem mapSet_mem (m : List (String × Int)) (k : String) (v : Int) :
    ∀ kv ∈ mapSet m k v, kv ∈ m ∨ kv = (k, v) := by
  induction m with
  | nil => intro kv hkv; simp [mapSet] at hkv; exact Or.inr hkv
  | cons a as ih =>
    intro kv hkv
    by_cases hak : a.1 == k
    · simp [mapSet, hak] at hkv
      rcases hkv with hkv | hkv
      · exact Or.inr hkv
      · exact Or.inl (List.mem_cons_of_mem a hkv)
    · simp [mapSet, hak] at hkv
      rcases hkv with hkv | hkv
      · exact Or.inl (by simp [hkv])
      · rcases ih kv hkv with h | h
        · exact Or.inl (List.mem_cons_of_mem a h)
        · exact Or.inr h

theorem updateUnreadCount_nonneg (fs : FeedStoreState) (feedId : String) (delta : Int)
    (h : ∀ f ∈ fs.feeds, 0 ≤ f.unread_count) :
    ∀ f ∈ (updateUnreadCount fs feedId delta).feeds, 0 ≤ f.unread_count := by
  intro f hf
  rcases updateFirst_mem _ _ fs.feeds f hf with hmem | ⟨y, _, rfl⟩
  · exact h f hmem
  · exact le_max_left 0 _

theorem updateCategoryUnreadCount_nonneg (fs : FeedStoreState) (feedId : String) (delta : Int)
    (h : ∀ kv ∈ fs.categoryUnreadCounts, 0 ≤ kv.2) :
    ∀ kv ∈ (updateCategoryUnreadCount fs feedId delta).categoryUnreadCounts, 0 ≤ kv.2 := by
  intro kv hkv
  unfold updateCategoryUnreadCount at hkv
  cases hfind : fs.feeds.find? (fun f => f.id == feedId) with
  | none => rw [hfind] at hkv; exact h kv hkv
  | some feed =>
    rw [hfind] at hkv
    simp only at hkv
    rcases mapSet_mem _ _ _ kv hkv with hmem | hkv'
    · exact h kv hmem
    · rw [hkv']; exact le_max_left 0 _

theorem updateUnreadCountForFeed_nonneg (gs : GroupStoreState) (feedId : String) (delta : Int)
    (h : ∀ g ∈ gs.groups, 0 ≤ g.unread_count) :
    ∀ g ∈ (updateUnreadCountForFeed gs feedId delta).groups, 0 ≤ g.unread_count := by
  intro g hg
  unfold updateUnreadCountForFeed at hg
  simp only [List.mem_map] at hg
  rcases hg with ⟨y, hy, rfl⟩
  split
  · exact le_max_left 0 _
  · exact h y hy

theorem applyDelta_nonneg (s : FeedStoreState × GroupStoreState) (c : DeltaCall)
    (h : CountsNonneg s) : CountsNonneg (applyDelta s c) := by
  obtain ⟨h1, h2, h3⟩ := h
  cases c with
  | feedDelta feedId d =>
    exact ⟨updateUnreadCount_nonneg s.1 feedId d h1, h2, h3⟩
  | categoryDelta feedId d =>
    refine ⟨?_, updateCategoryUnreadCount_nonneg s.1 feedId d h2, h3⟩
    show ∀ f ∈ (updateCategoryUnreadCount s.1 feedId d).feeds, 0 ≤ f.unread_count
    have hfe : (updateCategoryUnreadCount s.1 feedId d).feeds = s.1.feeds := by
      unfold updateCategoryUnreadCount
      cases s.1.feeds.find? (fun f => f.id == feedId) <;> rfl
    rw [hfe]
    exact h1
  | groupDelta feedId d =>
    exact ⟨h1, h2, updateUnreadCountForFeed_nonneg s.2 feedId d h3⟩


-- ---------------------------------------------------------------------------
-- Claims
-- ---------------------------------------------------------------------------

/-- C3: every feed, group and category aggregate unread counter stays
nonnegative under every sequence of signed-delta mutator calls with
arbitrary deltas, because each of the three delta mutators clamps the
resulting count at a minimum of zero. -/
theorem claim_C3 (s : FeedStoreState × GroupStoreState) (calls : List DeltaCall)
    (h : CountsNonneg s) : CountsNonneg (calls.foldl applyDelta s) := by
  induction calls generalizing s with
  | nil => exact h
  | cons c cs ih => exact ih (applyDelta s c) (applyDelta_nonneg s c h)

/-- Witness for C3 at a concrete store state and a concrete call
sequence whose deltas massively overshoot the stored counts. -/
theorem claim_C3_witness :
    CountsNonneg (sampleFS, sampleGS) ∧
    CountsNonneg (List.foldl applyDelta (sampleFS, sampleGS)
      [DeltaCall.feedDelta "f1" (-100), DeltaCall.categoryDelta "f1" (-100),
       DeltaCall.groupDelta "f1" (-100), DeltaCall.feedDelta "f1" 7]) :=
  ⟨by decide, claim_C3 (sampleFS, sampleGS) _ (by decide)⟩

/-- C4: `fetchEntries(newFilter)` — for every prior state and every new
filter, including one equal to the current filter — clears the entry
list, the selection, the search offset, the page counter and the page
cursors, and issues a first-page fetch (no cursor, offset 0). -/
theorem claim_C4 (ctx : Ctx) (s : EntryStoreState) (f : EntryFilter)
    (res : Except String (List Entry)) :
    (fetchEntries ctx s f res).2 = [callRpcRequest ctx 0 f none]
    ∧ (fetchEntries ctx s f res).1.filter = f
    ∧ (fetchEntries ctx s f res).1.selectedEntryId = none
    ∧ (fetchEntries ctx s f res).1.currentPage = 1
    ∧ (fetchEntries ctx s f res).1.pageCursors = [none]
    ∧ (fetchEntries ctx s f res).1.entries =
        (match res with | Except.ok rows => rows | Except.error _ => [])
    ∧ (fetchEntries ctx s f res).1.searchOffset =
        (match res with
         | Except.ok rows => if f.type == FilterType.search then rows.length else 0
         | Except.error _ => 0) := by
  cases res <;> simp [fetchEntries]

/-- C8: `fetchMore` is a complete no-op — no state mutation and no remote
call — while a previous fetch is in flight, while `hasMore` is false, or
while the loaded list is empty. -/
theorem claim_C8 (ctx : Ctx) (s : EntryStoreState) (res : Except String (List Entry))
    (h : s.loadingMore = true ∨ s.hasMore = false ∨ s.entries = []) :
    fetchMore ctx s res = (s, []) := by
  unfold fetchMore
  rcases h with h | h | h <;> simp [h]

/-- Witness for C8 at the initial store state (empty list, `hasMore`
false). -/
theorem claim_C8_witness :
    (initialEntryState.loadingMore = true ∨ initialEntryState.hasMore = false ∨
      initialEntryState.entries = [])
    ∧ fetchMore sampleCtx initialEntryState (Except.ok [sampleEntry "x"])
        = (initialEntryState, []) :=
  ⟨Or.inr (Or.inl rfl),
   claim_C8 sampleCtx initialEntryState (Except.ok [sampleEntry "x"]) (Or.inr (Or.inl rfl))⟩

/-- C10: `toggleStar` only ever touches the targeted entry's
`starred_at`: the feed, category and group aggregates, every entry's
non-star fields (including `read_at`), and every entry with a different
id are unchanged, whether the upsert succeeds or fails. -/
theorem claim_C10 (ctx : Ctx) (st : AppState) (entryId now : String)
    (res : Except String Unit) :
    (toggleStar ctx st entryId now res).1.fs = st.fs
    ∧ (toggleStar ctx st entryId now res).1.gs = st.gs
    ∧ (toggleStar ctx st entryId now res).1.es.entries.map entryNoStar
        = st.es.entries.map entryNoStar
    ∧ List.Forall₂ (fun a b => a.id = entryId ∨ b = a) st.es.entries
        (toggleStar ctx st entryId now res).1.es.entries := by
  have hrefl : List.Forall₂ (fun a b => a.id = entryId ∨ b = a) st.es.entries st.es.entries :=
    (List.forall₂_same).2 (fun x _ => Or.inr rfl)
  cases hfind : st.es.entries.find? (fun e => e.id == entryId) with
  | none =>
    simp only [toggleStar, hfind]
    exact ⟨trivial, trivial, trivial, hrefl⟩
  | some entry =>
    cases res with
    | error msg =>
      simp only [toggleStar, hfind]
      exact ⟨trivial, trivial, trivial, hrefl⟩
    | ok u =>
      simp only [toggleStar, hfind]
      refine ⟨trivial, trivial, ?_, ?_⟩
      · refine updateFirst_map _ _ entryNoStar ?_ st.es.entries
        intro x
        rfl
      · refine (updateFirst_forall2 (fun e => e.id == entryId) _ st.es.entries).imp ?_
        intro a b hab
        rcases hab with ⟨hpa, _⟩ | hb
        · exact Or.inl (by simpa using hpa)
        · exact Or.inr hb
/-- C5: after a successful `fetchEntries`, and after a successful
`fetchMore` that passed its guard, `hasMore` is true iff the returned row
count is at least the configured page size (a full page leaves it true,
fewer rows — including zero — set it false). -/
theorem claim_C5 (ctx : Ctx) (s : EntryStoreState) (f : EntryFilter) (rows : List Entry)
    (hlm : s.loadingMore = false) (hhm : s.hasMore = true) (hne : s.entries ≠ []) :
    ((fetchEntries ctx s f (Except.ok rows)).1.hasMore = true
        ↔ ctx.entriesPerPage ≤ rows.length)
    ∧ ((fetchMore ctx s (Except.ok rows)).1.hasMore = true
        ↔ ctx.entriesPerPage ≤ rows.length) := by
  constructor
  · simp [fetchEntries]
  · have hlen : (s.entries.length == 0) = false := by
      simp [List.length_eq_zero, hne]
    obtain ⟨last, hlast⟩ : ∃ last, s.entries.getLast? = some last := by
      cases hq : s.entries.getLast? with
      | none => exact absurd (List.getLast?_eq_none_iff.mp hq) hne
      | some x => exact ⟨x, rfl⟩
    by_cases hft : (s.filter.type == FilterType.search) = true
    · simp [fetchMore, hlm, hhm, hlen, hft]
    · simp [fetchMore, hlm, hhm, hlen, hft, hlast]

/-- Witness for C5 at a concrete loaded state and a full returned page. -/
theorem claim_C5_witness :
    (loadedES.loadingMore = false ∧ loadedES.hasMore = true ∧ loadedES.entries ≠ [])
    ∧ (((fetchEntries sampleCtx loadedES feedFilter
          (Except.ok [sampleEntry "a", sampleEntry "b"])).1.hasMore = true
        ↔ sampleCtx.entriesPerPage ≤ [sampleEntry "a", sampleEntry "b"].length)
      ∧ ((fetchMore sampleCtx loadedES
          (Except.ok [sampleEntry "a", sampleEntry "b"])).1.hasMore = true
        ↔ sampleCtx.entriesPerPage ≤ [sampleEntry "a", sampleEntry "b"].length)) :=
  ⟨⟨rfl, rfl, by decide⟩,
   claim_C5 sampleCtx loadedES feedFilter [sampleEntry "a", sampleEntry "b"] rfl rfl (by decide)⟩

/-- Counterexample to C2 as stated: at a concrete state with one unread
loaded entry, `markRead` fires the upsert, the upsert fails, and the
local entry is left unmutated — the local mutation does not "stand
regardless of whether the upsert succeeds", it is never applied. -/
theorem claim_C2_counterexample :
    (markRead sampleCtx sampleApp "e1" "T1" (Except.error "network down")).2 =
      [{ user_id := "u1", entry_id := "e1", field := StatusField.readAt (some "T1") }]
    ∧ (markRead sampleCtx sampleApp "e1" "T1" (Except.error "network down")).1.es.entries =
        sampleApp.es.entries
    ∧ (markRead sampleCtx sampleApp "e1" "T1" (Except.error "network down")).1.es.error =
        some "network down" := by
  refine ⟨rfl, rfl, rfl⟩

/-- C2 amended: `markRead` / `toggleRead` / `toggleStar` issue the remote
upsert first and await it; the local timestamp mutation (and, for the
read mutators, the aggregate-count propagation) is applied only when the
upsert succeeds.  On failure the entry list and all aggregate stores are
unchanged and only an error message is surfaced. -/
theorem claim_C2_amended (ctx : Ctx) (st : AppState) (entryId now msg : String) :
    ((markRead ctx st entryId now (Except.error msg)).1.es.entries = st.es.entries
      ∧ (markRead ctx st entryId now (Except.error msg)).1.fs = st.fs
      ∧ (markRead ctx st entryId now (Except.error msg)).1.gs = st.gs)
    ∧ ((toggleRead ctx st entryId now (Except.error msg)).1.es.entries = st.es.entries
      ∧ (toggleRead ctx st entryId now (Except.error msg)).1.fs = st.fs
      ∧ (toggleRead ctx st entryId now (Except.error msg)).1.gs = st.gs)
    ∧ ((toggleStar ctx st entryId now (Except.error msg)).1.es.entries = st.es.entries
      ∧ (toggleStar ctx st entryId now (Except.error msg)).1.fs = st.fs
      ∧ (toggleStar ctx st entryId now (Except.error msg)).1.gs = st.gs)
    ∧ (∀ e, st.es.entries.find? (fun x => x.id == entryId) = some e →
        truthy e.read_at = false →
        ((markRead ctx st entryId now (Except.ok ())).1.es.entries.find?
            (fun x => x.id == entryId)).map (fun x => x.read_at) = some (some now)
        ∧ (markRead ctx st entryId now (Except.ok ())).2 =
            [{ user_id := ctx.userId, entry_id := entryId,
               field := StatusField.readAt (some now) }]) := by
  refine ⟨?_, ?_, ?_, ?_⟩
  · cases hfind : st.es.entries.find? (fun x => x.id == entryId) with
    | none => simp [markRead, hfind]
    | some entry =>
      cases ht : truthy entry.read_at <;> simp [markRead, hfind, ht]
  · cases hfind : st.es.entries.find? (fun x => x.id == entryId) with
    | none => simp [toggleRead, hfind]
    | some entry => simp [toggleRead, hfind]
  · cases hfind : st.es.entries.find? (fun x => x.id == entryId) with
    | none => simp [toggleStar, hfind]
    | some entry => simp [toggleStar, hfind]
  · intro e hfind hunread
    constructor
    · have hstate : (markRead ctx st entryId now (Except.ok ())).1.es.entries
          = updateFirst (fun x => x.id == entryId)
              (fun x => { x with read_at := some now }) st.es.entries := by
        simp [markRead, hfind, hunread]
      rw [hstate, find?_updateFirst (fun (x : Entry) => x.id == entryId)
        (fun (x : Entry) => { x with read_at := some now }) (fun x => rfl), hfind]
      rfl
    · simp [markRead, hfind, hunread]

/-- Witness for C2 at a concrete loaded state: failing upsert leaves the
list unchanged, successful upsert stamps the entry. -/
theorem claim_C2_witness :
    (sampleApp.es.entries.find? (fun x => x.id == "e1") = some (sampleEntry "e1")
      ∧ truthy (sampleEntry "e1").read_at = false)
    ∧ ((markRead sampleCtx sampleApp "e1" "T1" (Except.error "x")).1.es.entries
        = sampleApp.es.entries
      ∧ ((markRead sampleCtx sampleApp "e1" "T1" (Except.ok ())).1.es.entries.find?
          (fun x => x.id == "e1")).map (fun x => x.read_at) = some (some "T1")) :=
  ⟨⟨by decide, by decide⟩,
   ⟨(claim_C2_amended sampleCtx sampleApp "e1" "T1" "x").1.1,
    ((claim_C2_amended sampleCtx sampleApp "e1" "T1" "x").2.2.2
      (sampleEntry "e1") (by decide) (by decide)).1⟩⟩

/-- Counterexample to C6 as stated: on an initially-unread loaded entry,
when the first call's upsert fails, the entry stays unread, so the second
`markRead` is not a no-op — the two consecutive calls issue two remote
upserts, not at most one. -/
theorem claim_C6_counterexample :
    (markRead sampleCtx sampleApp "e1" "T1" (Except.error "network down")).2.length = 1
    ∧ (markRead sampleCtx
        (markRead sampleCtx sampleApp "e1" "T1" (Except.error "network down")).1
        "e1" "T2" (Except.ok ())).2.length = 1
    ∧ (markRead sampleCtx sampleApp "e1" "T1" (Except.error "network down")).2.length
        + (markRead sampleCtx
            (markRead sampleCtx sampleApp "e1" "T1" (Except.error "network down")).1
            "e1" "T2" (Except.ok ())).2.length = 2 := by
  refine ⟨rfl, rfl, rfl⟩

/-- C6 amended: `markRead` on an already-read loaded entry is a complete
no-op (no state change, no remote call); hence two consecutive `markRead`
calls on an initially-unread entry, the first of whose upserts succeeds,
perform the local mutation once and issue exactly one remote upsert (the
second call is a complete no-op).  When the first upsert fails the entry
stays unread and the second call retries the upsert. -/
theorem claim_C6_amended (ctx : Ctx) (st : AppState) (entryId now1 now2 : String)
    (res1 res2 : Except String Unit) :
    (∀ e, st.es.entries.find? (fun x => x.id == entryId) = some e →
        truthy e.read_at = true → markRead ctx st entryId now1 res1 = (st, []))
    ∧ (now1 ≠ "" → ∀ e, st.es.entries.find? (fun x => x.id == entryId) = some e →
        truthy e.read_at = false →
        markRead ctx (markRead ctx st entryId now1 (Except.ok ())).1 entryId now2 res2
            = ((markRead ctx st entryId now1 (Except.ok ())).1, [])
        ∧ (markRead ctx st entryId now1 (Except.ok ())).2.length = 1) := by
  constructor
  · intro e hfind hread
    simp [markRead, hfind, hread]
  · intro hnow e hfind hunread
    have hstate : (markRead ctx st entryId now1 (Except.ok ())).1.es.entries
        = updateFirst (fun x => x.id == entryId)
            (fun x => { x with read_at := some now1 }) st.es.entries := by
      simp [markRead, hfind, hunread]
    have hfind2 : (markRead ctx st entryId now1 (Except.ok ())).1.es.entries.find?
        (fun x => x.id == entryId) = some { e with read_at := some now1 } := by
      rw [hstate, find?_updateFirst (fun (x : Entry) => x.id == entryId)
        (fun (x : Entry) => { x with read_at := some now1 }) (fun x => rfl), hfind]
      rfl
    have htr : truthy ({ e with read_at := some now1 } : Entry).read_at = true := by
      simp [truthy, hnow]
    constructor
    · set st1 := (markRead ctx st entryId now1 (Except.ok ())).1 with hS
      simp [markRead, hfind2, htr]
    · simp [markRead, hfind, hunread]

/-- Witness for C6: a concrete two-call run whose first upsert succeeds
performs the mutation once and fires exactly one upsert. -/
theorem claim_C6_witness :
    ("T1" ≠ "" ∧ sampleApp.es.entries.find? (fun x => x.id == "e1") = some (sampleEntry "e1")
      ∧ truthy (sampleEntry "e1").read_at = false)
    ∧ (markRead sampleCtx (markRead sampleCtx sampleApp "e1" "T1" (Except.ok ())).1
        "e1" "T2" (Except.ok ())
        = ((markRead sampleCtx sampleApp "e1" "T1" (Except.ok ())).1, [])
      ∧ (markRead sampleCtx sampleApp "e1" "T1" (Except.ok ())).2.length = 1) :=
  ⟨⟨by decide, by decide, by decide⟩,
   (claim_C6_amended sampleCtx sampleApp "e1" "T1" "T2" (Except.ok ()) (Except.ok ())).2
     (by decide) (sampleEntry "e1") (by decide) (by decide)⟩

/-- Counterexample to C7 as stated: when the first `toggleStar` call's
upsert fails, the entry is still unstarred, so the second call's upsert
carries a fresh timestamp rather than null, and `starred_at` ends up set
instead of back at null. -/
theorem claim_C7_counterexample :
    (toggleStar sampleCtx
        (toggleStar sampleCtx sampleApp "e1" "T1" (Except.error "network down")).1
        "e1" "T2" (Except.ok ())).2
      = [{ user_id := "u1", entry_id := "e1", field := StatusField.starredAt (some "T2") }]
    ∧ ((toggleStar sampleCtx
        (toggleStar sampleCtx sampleApp "e1" "T1" (Except.error "network down")).1
        "e1" "T2" (Except.ok ())).1.es.entries.map (fun e => e.starred_at))
      = [some "T2", none] := by
  refine ⟨rfl, rfl⟩

/-- C7 amended: on a loaded entry with null `starred_at`, two `toggleStar`
calls *whose upserts both succeed* return `starred_at` to null and issue
exactly two remote upserts, the first carrying the new timestamp and the
second carrying null. -/
theorem claim_C7_amended (ctx : Ctx) (st : AppState) (entryId t1 t2 : String)
    (hnow : t1 ≠ "") (e : Entry)
    (hfind : st.es.entries.find? (fun x => x.id == entryId) = some e)
    (hstar : e.starred_at = none) :
    (toggleStar ctx st entryId t1 (Except.ok ())).2
        = [{ user_id := ctx.userId, entry_id := entryId,
             field := StatusField.starredAt (some t1) }]
    ∧ (toggleStar ctx (toggleStar ctx st entryId t1 (Except.ok ())).1 entryId t2
        (Except.ok ())).2
        = [{ user_id := ctx.userId, entry_id := entryId,
             field := StatusField.starredAt none }]
    ∧ (toggleStar ctx (toggleStar ctx st entryId t1 (Except.ok ())).1 entryId t2
        (Except.ok ())).1.es.entries = st.es.entries := by
  have ht0 : truthy e.starred_at = false := by simp [truthy, hstar]
  have hstate : (toggleStar ctx st entryId t1 (Except.ok ())).1.es.entries
      = updateFirst (fun x => x.id == entryId)
          (fun x => { x with starred_at := some t1 }) st.es.entries := by
    simp [toggleStar, hfind, ht0]
  have hfind2 : (toggleStar ctx st entryId t1 (Except.ok ())).1.es.entries.find?
      (fun x => x.id == entryId) = some { e with starred_at := some t1 } := by
    rw [hstate, find?_updateFirst (fun (x : Entry) => x.id == entryId)
      (fun (x : Entry) => { x with starred_at := some t1 }) (fun x => rfl), hfind]
    rfl
  have htr : truthy ({ e with starred_at := some t1 } : Entry).starred_at = true := by
    simp [truthy, hnow]
  have h1 : (toggleStar ctx st entryId t1 (Except.ok ())).2
      = [{ user_id := ctx.userId, entry_id := entryId,
           field := StatusField.starredAt (some t1) }] := by
    simp [toggleStar, hfind, ht0]
  set st1 := (toggleStar ctx st entryId t1 (Except.ok ())).1 with hS
  have h2 : (toggleStar ctx st1 entryId t2 (Except.ok ())).2
      = [{ user_id := ctx.userId, entry_id := entryId,
           field := StatusField.starredAt none }] := by
    simp [toggleStar, hfind2, htr]
  have hstate2 : (toggleStar ctx st1 entryId t2 (Except.ok ())).1.es.entries
      = updateFirst (fun x => x.id == entryId)
          (fun x => { x with starred_at := none }) st1.es.entries := by
    simp [toggleStar, hfind2, htr]
  refine ⟨h1, h2, ?_⟩
  rw [hstate2, hstate, updateFirst_updateFirst (fun (x : Entry) => x.id == entryId)
    (fun (x : Entry) => { x with starred_at := some t1 })
    (fun (x : Entry) => { x with starred_at := none }) (fun x => rfl)]
  refine updateFirst_of_find? _ _ st.es.entries e hfind ?_
  obtain ⟨i, fi, p, c, r, sa⟩ := e
  simp only at hstar
  rw [hstar]

/-- Witness for C7: the amended double-toggle property at a concrete
state. -/
theorem claim_C7_witness :
    ("T1" ≠ "" ∧ sampleApp.es.entries.find? (fun x => x.id == "e1") = some (sampleEntry "e1")
      ∧ (sampleEntry "e1").starred_at = none)
    ∧ ((toggleStar sampleCtx sampleApp "e1" "T1" (Except.ok ())).2
        = [{ user_id := "u1", entry_id := "e1", field := StatusField.starredAt (some "T1") }]
      ∧ (toggleStar sampleCtx (toggleStar sampleCtx sampleApp "e1" "T1" (Except.ok ())).1
          "e1" "T2" (Except.ok ())).2
        = [{ user_id := "u1", entry_id := "e1", field := StatusField.starredAt none }]
      ∧ (toggleStar sampleCtx (toggleStar sampleCtx sampleApp "e1" "T1" (Except.ok ())).1
          "e1" "T2" (Except.ok ())).1.es.entries = sampleApp.es.entries) :=
  ⟨⟨by decide, by decide, rfl⟩,
   claim_C7_amended sampleCtx sampleApp "e1" "T1" "T2" (by decide) (sampleEntry "e1")
     (by decide) rfl⟩

/-- C9: `silentRefresh` is a complete no-op while the reader is open with
a selected entry; otherwise, in infinite mode with a non-search filter
and a non-empty list, a failure changes nothing, and a success leaves
`hasMore` untouched, prepends exactly the genuinely new rows, refreshes
the already-present entries in place (order and non-flag fields
preserved), and — for duplicate-free inputs — never introduces a
duplicate id. -/
theorem claim_C9 (ctx : Ctx) (s : EntryStoreState) (rows : List Entry) (msg : String)
    (res : Except String (List Entry)) :
    (ctx.readerOpen = true → truthy s.selectedEntryId = true →
        silentRefresh ctx s res = (s, []))
    ∧ (s.loading = false → s.loadingMore = false →
        (ctx.readerOpen = false ∨ truthy s.selectedEntryId = false) →
        ctx.paginationMode = PaginationMode.infinite →
        s.filter.type ≠ FilterType.search →
        s.entries ≠ [] →
        ((silentRefresh ctx s (Except.error msg)).1 = s
        ∧ (silentRefresh ctx s (Except.ok rows)).1.hasMore = s.hasMore
        ∧ (silentRefresh ctx s (Except.ok rows)).1.entries.take
            (rows.filter (fun row => !(s.entries.any (fun e => e.id == row.id)))).length
            = rows.filter (fun row => !(s.entries.any (fun e => e.id == row.id)))
        ∧ ((silentRefresh ctx s (Except.ok rows)).1.entries.drop
            (rows.filter (fun row => !(s.entries.any (fun e => e.id == row.id)))).length).map
              entryCore = s.entries.map entryCore
        ∧ ((s.entries.map (fun e => e.id)).Nodup → (rows.map (fun e => e.id)).Nodup →
            ((silentRefresh ctx s (Except.ok rows)).1.entries.map (fun e => e.id)).Nodup))) := by
  constructor
  · intro hro hsel
    unfold silentRefresh
    cases hld : (s.loading || s.loadingMore) with
    | true => simp [hld]
    | false => simp [hld, hro, hsel]
  · intro hl hlm hrd hmode hft hne
    have hg1 : (s.loading || s.loadingMore) = false := by simp [hl, hlm]
    have hg2 : (ctx.readerOpen && truthy s.selectedEntryId) = false := by
      rcases hrd with h | h <;> simp [h]
    have hft2 : (s.filter.type == FilterType.search) = false := by
      simpa using hft
    have hpos : decide (0 < s.entries.length) = true := by
      simp [List.length_pos, hne]
    have hmode2 : (ctx.paginationMode == PaginationMode.infinite) = true := by
      simp [hmode]
    have hent : (silentRefresh ctx s (Except.ok rows)).1.entries
        = rows.filter (fun row => !(s.entries.any (fun e => e.id == row.id)))
          ++ mergeOld s.entries rows := by
      simp [silentRefresh, hg1, hg2, hft2, hpos, hmode2]
    have hhm : (silentRefresh ctx s (Except.ok rows)).1.hasMore = s.hasMore := by
      simp [silentRefresh, hg1, hg2, hft2, hpos, hmode2]
    have herr : (silentRefresh ctx s (Except.error msg)).1 = s := by
      simp [silentRefresh, hg1, hg2, hft2, hpos, hmode2]
    refine ⟨herr, hhm, ?_, ?_, ?_⟩
    · rw [hent]
      exact List.take_left _ _
    · rw [hent, List.drop_left, mergeOld_map_core]
    · intro hs hr
      rw [hent, List.map_append, mergeOld_map_id]
      refine List.Nodup.append ?_ hs ?_
      · exact List.Sublist.nodup ((List.filter_sublist rows).map (fun e => e.id)) hr
      · rw [List.disjoint_left]
        intro a ha hb
        simp only [List.mem_map] at ha hb
        obtain ⟨row, hrowmem, rfl⟩ := ha
        obtain ⟨e2, he2mem, heq⟩ := hb
        rw [List.mem_filter] at hrowmem
        have hany := hrowmem.2
        rw [Bool.not_eq_eq_eq_not, Bool.not_true, List.any_eq_false] at hany
        exact hany e2 he2mem (by simp [heq])

/-- Witness for C9: a concrete merge run (one fresh copy of a loaded
entry, one genuinely new row). -/
theorem claim_C9_witness :
    (loadedES.loading = false ∧ loadedES.loadingMore = false
      ∧ (sampleCtx.readerOpen = false ∨ truthy loadedES.selectedEntryId = false)
      ∧ sampleCtx.paginationMode = PaginationMode.infinite
      ∧ loadedES.filter.type ≠ FilterType.search ∧ loadedES.entries ≠ []
      ∧ (loadedES.entries.map (fun e => e.id)).Nodup ∧ (c9rows.map (fun e => e.id)).Nodup)
    ∧ ((silentRefresh sampleCtx loadedES (Except.error "boom")).1 = loadedES
      ∧ (silentRefresh sampleCtx loadedES (Except.ok c9rows)).1.hasMore = loadedES.hasMore
      ∧ ((silentRefresh sampleCtx loadedES (Except.ok c9rows)).1.entries.map
          (fun e => e.id)).Nodup) :=
  ⟨⟨rfl, rfl, Or.inl rfl, rfl, by decide, by decide, by decide, by decide⟩,
   ⟨((claim_C9 sampleCtx loadedES c9rows "boom" (Except.ok c9rows)).2 rfl rfl (Or.inl rfl)
        rfl (by decide) (by decide)).1,
    ((claim_C9 sampleCtx loadedES c9rows "boom" (Except.ok c9rows)).2 rfl rfl (Or.inl rfl)
        rfl (by decide) (by decide)).2.1,
    ((claim_C9 sampleCtx loadedES c9rows "boom" (Except.ok c9rows)).2 rfl rfl (Or.inl rfl)
        rfl (by decide) (by decide)).2.2.2.2 (by decide) (by decide)⟩⟩

theorem fetchPage_next_cursors (ctx : Ctx) (s : EntryStoreState)
    (res : Except String (List Entry)) (e : Entry)
    (hm : s.hasMore = true) (hl : s.entries.getLast? = some e) :
    (fetchPage ctx s PageDirection.next res).1.currentPage = s.currentPage + 1
    ∧ (fetchPage ctx s PageDirection.next res).1.pageCursors
        = arraySet s.pageCursors s.currentPage (some (cursorOfEntry e)) := by
  cases res <;>
    by_cases hft : (s.filter.type == FilterType.search) = true <;>
      simp [fetchPage, hm, hl, hft]

theorem fetchPage_prev_cursors (ctx : Ctx) (s : EntryStoreState)
    (res : Except String (List Entry)) (hp : 1 < s.currentPage) :
    (fetchPage ctx s PageDirection.prev res).1.currentPage = s.currentPage - 1
    ∧ (fetchPage ctx s PageDirection.prev res).1.pageCursors = s.pageCursors := by
  have hg : ¬(s.currentPage ≤ 1) := by omega
  cases res <;>
    by_cases hft : (s.filter.type == FilterType.search) = true <;>
      simp [fetchPage, hg, hft]

/-- Counterexample to C1 as stated: at a concrete two-page run (one
successful `fetchEntries`, one successful `fetchPage('next')`), a
successful `fetchPage('prev')` returns `currentPage` to 1 but does *not*
shrink the recorded page-cursor list back to the single initial null
cursor — the list still has length 2. -/
theorem claim_C1_counterexample :
    c1s3.currentPage = 1 ∧ c1s3.pageCursors.length = 2
    ∧ c1s3.pageCursors ≠ [none] := by decide

/-- C1 amended: after one successful `fetchEntries` (returning a full
page whose last row is `e`) and one successful `fetchPage('next')`, a
successful `fetchPage('prev')` returns `currentPage` to 1 but leaves the
page-cursor list of length 2: the initial null cursor followed by the
recorded page-2 cursor (it is only overwritten in place by a later
`fetchPage('next')`, never popped). -/
theorem claim_C1_amended (ctx : Ctx) (s : EntryStoreState) (f : EntryFilter)
    (rows1 rows2 rows3 : List Entry) (e : Entry)
    (hlast : rows1.getLast? = some e)
    (hfull : ctx.entriesPerPage ≤ rows1.length) :
    (fetchPage ctx
      (fetchPage ctx (fetchEntries ctx s f (Except.ok rows1)).1 PageDirection.next
        (Except.ok rows2)).1
      PageDirection.prev (Except.ok rows3)).1.currentPage = 1
    ∧ (fetchPage ctx
        (fetchPage ctx (fetchEntries ctx s f (Except.ok rows1)).1 PageDirection.next
          (Except.ok rows2)).1
        PageDirection.prev (Except.ok rows3)).1.pageCursors
      = [none, some (cursorOfEntry e)] := by
  have h1cp : (fetchEntries ctx s f (Except.ok rows1)).1.currentPage = 1 := by
    simp [fetchEntries]
  have h1pc : (fetchEntries ctx s f (Except.ok rows1)).1.pageCursors = [none] := by
    simp [fetchEntries]
  have h1hm : (fetchEntries ctx s f (Except.ok rows1)).1.hasMore = true := by
    simp [fetchEntries, hfull]
  have h1en : (fetchEntries ctx s f (Except.ok rows1)).1.entries = rows1 := by
    simp [fetchEntries]
  have hl1 : (fetchEntries ctx s f (Except.ok rows1)).1.entries.getLast? = some e := by
    rw [h1en]
    exact hlast
  obtain ⟨h2cp, h2pc⟩ :=
    fetchPage_next_cursors ctx (fetchEntries ctx s f (Except.ok rows1)).1
      (Except.ok rows2) e h1hm hl1
  rw [h1cp] at h2cp
  rw [h1cp, h1pc] at h2pc
  have h2pc2 : (fetchPage ctx (fetchEntries ctx s f (Except.ok rows1)).1 PageDirection.next
      (Except.ok rows2)).1.pageCursors = [none, some (cursorOfEntry e)] := by
    rw [h2pc]
    rfl
  have hp : 1 < (fetchPage ctx (fetchEntries ctx s f (Except.ok rows1)).1 PageDirection.next
      (Except.ok rows2)).1.currentPage := by omega
  obtain ⟨h3cp, h3pc⟩ :=
    fetchPage_prev_cursors ctx
      (fetchPage ctx (fetchEntries ctx s f (Except.ok rows1)).1 PageDirection.next
        (Except.ok rows2)).1
      (Except.ok rows3) hp
  rw [h2cp] at h3cp
  rw [h2pc2] at h3pc
  exact ⟨h3cp, h3pc⟩

/-- Witness for C1's amended statement at the concrete two-page run. -/
theorem claim_C1_witness :
    ([sampleEntry "e4", sampleEntry "e3"].getLast? = some (sampleEntry "e3")
      ∧ sampleCtx.entriesPerPage ≤ [sampleEntry "e4", sampleEntry "e3"].length)
    ∧ (c1s3.currentPage = 1
      ∧ c1s3.pageCursors = [none, some (cursorOfEntry (sampleEntry "e3"))]) :=
  ⟨⟨rfl, by decide⟩,
   claim_C1_amended sampleCtx initialEntryState feedFilter
     [sampleEntry "e4", sampleEntry "e3"] [sampleEntry "e2", sampleEntry "e1"]
     [sampleEntry "e4", sampleEntry "e3"] (sampleEntry "e3") rfl (by decide)⟩

end Acta
